import Mathlib

/-!
Shallow embedding of `handler_upload_video.go` from the
learn-file-storage-s3-golang-starter repository.

The handler orchestrates a video upload pipeline: parse the path video id,
authenticate (bearer token + JWT), load the video record, check ownership,
extract the multipart file, validate the declared content type, stage the
bytes to a temp file, probe the aspect with an external inspection tool,
remux with an external transcode tool, upload to the object store under a
derived key, and update the video record.

External collaborators (uuid parsing, auth, the metadata store, the
multipart parser, the filesystem calls, the two external tools, the object
store) are modelled as an environment `Env` of oracle outcomes, one field
per fallible call, in the order the Go code consults them.  The handler is
then a pure function of `Env` returning the HTTP status it responds with
and a trace of the externally visible events it performed (file creations,
file removals, the object-store put, the record update).  Go `defer`
statements are modelled by appending the deferred removals, in LIFO
(reverse registration) order, to the trace of every return path at which
they are registered, exactly as Go executes them.

Go's `float64` arithmetic in `getVideoAspectRatio` is modelled by
`FloatVal`: an exact rational for the finite case, plus the IEEE special
values `posInf`, `negInf`, `nan` produced by division by zero, with
comparisons against the (exact) tolerance constants; `x > c` and `x < c`
are false for `nan`, and the infinities compare in the standard way.
Finite division is modelled exactly (real `float64` division rounds; the
claims under examination concern the exact constants `16/9`, `9/16`,
`0.1`, so the exact model is the faithful reading).
-/

namespace UploadVideo

/-- Model of a Go `float64` value as produced by `float64(w) / float64(h)`:
either an exact finite rational, or one of the IEEE special values. -/
inductive FloatVal where
  | finite (q : ℚ)
  | posInf
  | negInf
  | nan
deriving DecidableEq

/-- Go `float64(w) / float64(h)` (line 183 of the source): division by zero
yields +Inf for positive numerator, -Inf for negative, NaN for 0/0. -/
def floatDiv (w h : ℤ) : FloatVal :=
  if h = 0 then
    if 0 < w then FloatVal.posInf
    else if w < 0 then FloatVal.negInf
    else FloatVal.nan
  else FloatVal.finite ((w : ℚ) / (h : ℚ))

/-- Go `x > c` on float64 against a finite constant: false for NaN and -Inf,
true for +Inf. -/
def fvGtB (x : FloatVal) (c : ℚ) : Bool :=
  match x with
  | FloatVal.finite q => decide (c < q)
  | FloatVal.posInf => true
  | FloatVal.negInf => false
  | FloatVal.nan => false

/-- Go `x < c` on float64 against a finite constant: false for NaN and +Inf,
true for -Inf. -/
def fvLtB (x : FloatVal) (c : ℚ) : Bool :=
  match x with
  | FloatVal.finite q => decide (q < c)
  | FloatVal.posInf => false
  | FloatVal.negInf => true
  | FloatVal.nan => false

/-- Spec-side formulation (for the refinement claim about classification):
`|x - c| < t` read over the float model, where any arithmetic involving
Inf or NaN makes the strict comparison false. -/
def fvDistLtB (x : FloatVal) (c t : ℚ) : Bool :=
  match x with
  | FloatVal.finite q => decide (|q - c| < t)
  | _ => false

/-- Lines 185-194 of the source: the tolerance window tests on the computed
float value, in the order the code performs them. -/
def classifyVal (r : FloatVal) : String :=
  if fvGtB r (16/9 - 1/10) && fvLtB r (16/9 + 1/10) then "16:9"
  else if fvGtB r (9/16 - 1/10) && fvLtB r (9/16 + 1/10) then "9:16"
  else "other"

/-- Lines 180-194 of `getVideoAspectRatio`: the value computed from the
first stream's width and height. -/
def classify (w h : ℤ) : String := classifyVal (floatDiv w h)

/-- Outcome of running the external inspection tool (ffprobe) and decoding
its JSON: the process may fail, the output may fail to unmarshal, or we
get the stream list (width, height per stream). -/
inductive ProbeOut where
  | runFailed
  | badJson
  | streams (s : List (ℤ × ℤ))
deriving DecidableEq

/-- `getVideoAspectRatio` (lines 162-195): runs ffprobe, unmarshals, rejects
an empty stream list, and classifies by the first stream's geometry. -/
def getVideoAspectRatio (p : ProbeOut) : Except String String :=
  match p with
  | ProbeOut.runFailed => Except.error "failed to run ffprobe"
  | ProbeOut.badJson => Except.error "failed to unmarshal json"
  | ProbeOut.streams [] => Except.error "no streams found in video"
  | ProbeOut.streams ((w, h) :: _) => Except.ok (classify w h)

/-- The switch on lines 101-109: map the aspect string to the key pfx. -/
def pfxOf (aspect : String) : String :=
  if aspect = "16:9" then "landscape"
  else if aspect = "9:16" then "portrait"
  else "other"

/-- Classification of a stream geometry as the handler uses it. -/
def classifyPfx (w h : ℤ) : String := pfxOf (classify w h)

/-- Externally visible events of one request execution, in order. -/
inductive Event where
  | createTemp (name : String)
  | copyBytes
  | createOutput (name : String)
  | removeFile (name : String)
  | putObject (key : String) (ok : Bool)
  | updateVideo (ok : Bool)
deriving DecidableEq

/-- Environment of the external transcode tool (ffmpeg) invocation:
whether the binary resolves on PATH, whether the process exits 0, whether
it creates the output file at all, and the size of that output file. -/
structure FfmpegEnv where
  onPath : Bool
  exitOk : Bool
  writesOutput : Bool
  outputSize : Nat
deriving DecidableEq

/-- `processVideoForFastStart` (lines 197-221): LookPath precondition, run
ffmpeg writing `filePath + ".processing"`, then stat the output and reject
a zero-byte file.  Returns the result together with the file-creation
events the invocation performed (ffmpeg may create its output file even
when it then fails, and the partially written file stays behind). -/
def processVideoForFastStart (fenv : FfmpegEnv) (filePath : String) :
    Except String String × List Event :=
  if fenv.onPath = false then (Except.error "ffmpeg not found in PATH", [])
  else
    let output := filePath ++ ".processing"
    let evs := if fenv.writesOutput then [Event.createOutput output] else []
    if fenv.exitOk = false then (Except.error "error processing video", evs)
    else if fenv.writesOutput = false then
      (Except.error "could not stat processed file", evs)
    else if fenv.outputSize = 0 then (Except.error "processed file is empty", evs)
    else (Except.ok output, evs)

/-- One hex digit, lowercase, as produced by Go `%x` formatting. -/
def hexDigitChar (n : Nat) : Char :=
  if n < 10 then Char.ofNat (48 + n) else Char.ofNat (87 + n)

/-- Hex expansion of a byte list: two lowercase digits per byte, as Go
`%x` prints a `[]byte`. -/
def hexChars : List Nat → List Char
  | [] => []
  | b :: rest => hexDigitChar (b / 16) :: hexDigitChar (b % 16) :: hexChars rest

/-- Go `fmt.Sprintf("%x", randBytes)`. -/
def hexEncode (bs : List Nat) : String := String.mk (hexChars bs)

/-- Line 125: `fmt.Sprintf("%s/%x.mp4", prefix, randBytes)`. -/
def deriveKey (pfx : String) (bs : List Nat) : String :=
  pfx ++ "/" ++ hexEncode bs ++ ".mp4"

/-- Character class `[0-9a-f]`. -/
def isHexDigitChar (c : Char) : Bool :=
  (48 ≤ c.toNat && c.toNat ≤ 57) || (97 ≤ c.toNat && c.toNat ≤ 102)

/-- The video record as the handler touches it: owner id and the mutable
URL field. -/
structure Video where
  userID : Nat
  videoURL : Option String
deriving DecidableEq

/-- Oracle outcomes for every fallible call of `handlerUploadVideo`, in
source order: uuid.Parse, GetBearerToken, ValidateJWT, GetVideo, FormFile,
the parsed media type, CreateTemp (with the unique temp file name the OS
picked), io.Copy, Seek, rand.Read (with the 16 bytes drawn), the ffprobe
outcome, the ffmpeg environment, os.Open on the processed file, PutObject,
and UpdateVideo. -/
structure Env where
  videoIDOk : Bool
  tokenOk : Bool
  jwtUser : Option Nat
  dbVideo : Option Video
  formFileOk : Bool
  mediaType : String
  createTempOk : Bool
  tempName : String
  copyOk : Bool
  seekOk : Bool
  randOk : Bool
  randBytes : List Nat
  probe : ProbeOut
  ffmpeg : FfmpegEnv
  openProcessedOk : Bool
  putObjectOk : Bool
  updateOk : Bool

/-- Result of one request: the HTTP status responded with and the ordered
trace of externally visible events. -/
structure HResult where
  status : Nat
  trace : List Event
deriving DecidableEq

/-- Lines 68-151 of the handler, from `os.CreateTemp` (already succeeded)
onward.  The deferred `os.Remove(temp.Name())` of line 74 is pending on
every path below; the deferred `os.Remove(fastStart)` of line 116 is
registered only once `processVideoForFastStart` has returned successfully,
and the two removals run in LIFO order at return. -/
def stagedPipeline (env : Env) : HResult :=
  let tn := env.tempName
  let created : List Event := [Event.createTemp tn, Event.copyBytes]
  let defers : List Event := [Event.removeFile tn]
  if env.copyOk = false then ⟨500, created ++ defers⟩
  else if env.seekOk = false then ⟨500, created ++ defers⟩
  else if env.randOk = false then ⟨500, created ++ defers⟩
  else
    match getVideoAspectRatio env.probe with
    | Except.error _ => ⟨500, created ++ defers⟩
    | Except.ok aspect =>
      match processVideoForFastStart env.ffmpeg tn with
      | (Except.error _msg, evs) => ⟨500, created ++ evs ++ defers⟩
      | (Except.ok fastStart, evs) =>
        let defers2 := Event.removeFile fastStart :: defers
        if env.openProcessedOk = false then ⟨500, created ++ evs ++ defers2⟩
        else
          let key := deriveKey (pfxOf aspect) env.randBytes
          let t3 := created ++ evs ++ [Event.putObject key env.putObjectOk]
          if env.putObjectOk = false then ⟨500, t3 ++ defers2⟩
          else
            let t4 := t3 ++ [Event.updateVideo env.updateOk]
            if env.updateOk = false then ⟨500, t4 ++ defers2⟩
            else ⟨200, t4 ++ defers2⟩

/-- `handlerUploadVideo` (lines 21-151).  Status numbers are the Go
constants the source passes to `respondWithError` / `respondWithJSON`:
500 StatusInternalServerError, 401 StatusUnauthorized,
400 StatusBadRequest, 200 StatusOK.  Every failure before `os.CreateTemp`
returns with an empty trace: no file has been created, no upload bytes
have been copied, no store call has been made. -/
def handlerUploadVideo (env : Env) : HResult :=
  if env.videoIDOk = false then ⟨500, []⟩
  else if env.tokenOk = false then ⟨401, []⟩
  else
    match env.jwtUser with
    | none => ⟨401, []⟩
    | some userId =>
      match env.dbVideo with
      | none => ⟨500, []⟩
      | some video =>
        if video.userID ≠ userId then ⟨401, []⟩
        else if env.formFileOk = false then ⟨400, []⟩
        else if env.mediaType ≠ "video/mp4" then ⟨400, []⟩
        else if env.createTempOk = false then ⟨500, []⟩
        else stagedPipeline env

/-- Names of the local files a trace created. -/
def createdNames (t : List Event) : List String :=
  t.filterMap fun e =>
    match e with
    | Event.createTemp n => some n
    | Event.createOutput n => some n
    | _ => none

/-- Names of the local files a trace removed. -/
def removedNames (t : List Event) : List String :=
  t.filterMap fun e =>
    match e with
    | Event.removeFile n => some n
    | _ => none

/-- Files still on disk when the request completes: created and never
removed. -/
def remainingFiles (t : List Event) : List String :=
  (createdNames t).filter fun n => decide (n ∉ removedNames t)

/-- True when no record update occurs before the first successful
object-store put: scanning left to right, reaching a successful put is
fine (everything later is after it), reaching an update first is not. -/
def updateOnlyAfterPut : List Event → Bool
  | [] => true
  | e :: rest =>
    match e with
    | Event.putObject _ true => true
    | Event.updateVideo _ => false
    | _ => updateOnlyAfterPut rest

/-- The cleanup contract of one request, amended to what the code
guarantees: the staged temp file never survives the request; at most the
remuxer's output file (at `tempName ++ ".processing"`) can survive (it
does exactly when the remux step itself fails after ffmpeg created it);
and the removals that do happen occur in reverse order of the creations.
-/
def cleanupSpec (tn : String) (t : List Event) : Prop :=
  decide (tn ∈ remainingFiles t) = false
  ∧ (remainingFiles t = [] ∨ remainingFiles t = [tn ++ ".processing"])
  ∧ removedNames t
      = ((createdNames t).filter (fun n => decide (n ∈ removedNames t))).reverse

/-- Concrete environment: the record referenced by the path id is absent
from the metadata store; everything else would succeed. -/
def envAbsent : Env :=
  ⟨true, true, some 0, none, true, "video/mp4", true, "tmp",
   true, true, true, List.replicate 16 0, ProbeOut.streams [(0, 0)],
   ⟨true, true, true, 5⟩, true, true, true⟩

/-- Concrete environment: the path video identifier is malformed
(uuid.Parse fails); everything else would succeed. -/
def envBadID : Env :=
  ⟨false, true, some 0, some ⟨0, none⟩, true, "video/mp4", true, "tmp",
   true, true, true, List.replicate 16 0, ProbeOut.streams [(0, 0)],
   ⟨true, true, true, 5⟩, true, true, true⟩

/-- Concrete environment: every step succeeds until the remux, where
ffmpeg resolves, exits 0, and writes its output file — but the output is
zero bytes, so `processVideoForFastStart` reports failure after the file
has already been created. -/
def envZeroOut : Env :=
  ⟨true, true, some 0, some ⟨0, none⟩, true, "video/mp4", true, "tmp",
   true, true, true, List.replicate 16 0, ProbeOut.streams [(0, 0)],
   ⟨true, true, true, 0⟩, true, true, true⟩

end UploadVideo

namespace UploadVideo

/-- A string never equals itself extended with the ".processing" suffix. -/
@[simp]
theorem append_processing_ne (s : String) : (s ++ ".processing" = s) ↔ False := by
  constructor
  · intro heq
    have hlen : (s ++ ".processing").length = s.length := by rw [heq]
    rw [String.length_append] at hlen
    have h11 : ".processing".length = 11 := rfl
    omega
  · exact False.elim

/-- Symmetric version of `append_processing_ne`. -/
@[simp]
theorem append_processing_ne2 (s : String) : (s = s ++ ".processing") ↔ False := by
  constructor
  · intro hexp
    exact (append_processing_ne s).mp hexp.symm
  · exact False.elim

/-- The four possible outcomes of `processVideoForFastStart`: immediate
failure with no file touched (tool not on PATH, or it never wrote the
output), or failure after the output file was created, or success with
the output file created at `filePath ++ ".processing"`. -/
theorem pv_shape (fenv : FfmpegEnv) (fp : String) :
    ((∃ m, (processVideoForFastStart fenv fp).1 = Except.error m)
        ∧ (processVideoForFastStart fenv fp).2 = [])
  ∨ ((∃ m, (processVideoForFastStart fenv fp).1 = Except.error m)
        ∧ (processVideoForFastStart fenv fp).2
            = [Event.createOutput (fp ++ ".processing")])
  ∨ processVideoForFastStart fenv fp
      = (Except.ok (fp ++ ".processing"), [Event.createOutput (fp ++ ".processing")]) := by
  obtain ⟨onp, exok, wout, osz⟩ := fenv
  cases onp <;> cases exok <;> cases wout <;> rcases osz with _ | n <;>
    simp [processVideoForFastStart]

/-- Claim C1 (counterexample): with the referenced record absent from the
metadata store and every other collaborator healthy, the handler responds
500 (InternalError), not 404 (NotFound) as the claim states. -/
theorem claim_C1_counterexample :
    (handlerUploadVideo envAbsent).status = 500
      ∧ ¬ (handlerUploadVideo envAbsent).status = 404 := by
  decide

/-- Claim C1 (amended): for every upload request whose video id refers to
a record absent from the metadata store (and that reaches the record
lookup: well-formed id, valid credential), the pipeline fails with
InternalError (HTTP 500) and performs no further steps — the event trace
is empty: no file staged, no bytes copied, no store call, no update. -/
theorem claim_C1_amended (env : Env) (u : Nat)
    (h1 : env.videoIDOk = true) (h2 : env.tokenOk = true)
    (h3 : env.jwtUser = some u) (h4 : env.dbVideo = none) :
    handlerUploadVideo env = ⟨500, []⟩ := by
  simp [handlerUploadVideo, h1, h2, h3, h4]

/-- Claim C1 (witness): the amended theorem applied at the concrete
absent-record environment. -/
theorem claim_C1_witness : handlerUploadVideo envAbsent = ⟨500, []⟩ :=
  claim_C1_amended envAbsent 0 rfl rfl rfl rfl

/-- Claim C4: whenever the authenticated principal differs from the video
record's owner — any valid credential of an unrelated principal — the
handler fails with 401 Unauthorized and its event trace is empty: no temp
file is created and no bytes are read from the upload. -/
theorem claim_C4_ownership (env : Env) (u : Nat) (v : Video)
    (h1 : env.videoIDOk = true) (h2 : env.tokenOk = true)
    (h3 : env.jwtUser = some u) (h4 : env.dbVideo = some v)
    (h5 : v.userID ≠ u) :
    handlerUploadVideo env = ⟨401, []⟩ := by
  simp [handlerUploadVideo, h1, h2, h3, h4, h5]

/-- Claim C4 (witness): a valid but unrelated principal (id 7) against a
record owned by principal 0. -/
theorem claim_C4_witness :
    handlerUploadVideo
      ⟨true, true, some 7, some ⟨0, none⟩, true, "video/mp4", true, "tmp",
       true, true, true, List.replicate 16 0, ProbeOut.streams [(0, 0)],
       ⟨true, true, true, 5⟩, true, true, true⟩ = ⟨401, []⟩ :=
  claim_C4_ownership _ 7 ⟨0, none⟩ rfl rfl rfl rfl (by decide)

/-- Claim C6: the remux fails immediately when the transcode tool is not
resolvable on PATH (no invocation, no file event); and with the tool
present and exiting 0 it still fails when the output file is missing, or
exists with size zero. -/
theorem claim_C6_remux (fenv : FfmpegEnv) (fp : String) :
    (fenv.onPath = false →
       processVideoForFastStart fenv fp = (Except.error "ffmpeg not found in PATH", []))
  ∧ (fenv.onPath = true → fenv.exitOk = true → fenv.writesOutput = false →
       (processVideoForFastStart fenv fp).1 = Except.error "could not stat processed file")
  ∧ (fenv.onPath = true → fenv.exitOk = true → fenv.writesOutput = true →
       fenv.outputSize = 0 →
       (processVideoForFastStart fenv fp).1 = Except.error "processed file is empty") := by
  refine ⟨?_, ?_, ?_⟩ <;> intros <;> simp [processVideoForFastStart, *]

/-- Claim C6 (witness): the three failure modes at concrete tool
environments. -/
theorem claim_C6_witness :
    processVideoForFastStart ⟨false, true, true, 1⟩ "f"
        = (Except.error "ffmpeg not found in PATH", [])
  ∧ (processVideoForFastStart ⟨true, true, false, 1⟩ "f").1
        = Except.error "could not stat processed file"
  ∧ (processVideoForFastStart ⟨true, true, true, 0⟩ "f").1
        = Except.error "processed file is empty" :=
  ⟨(claim_C6_remux ⟨false, true, true, 1⟩ "f").1 rfl,
   (claim_C6_remux ⟨true, true, false, 1⟩ "f").2.1 rfl rfl rfl,
   (claim_C6_remux ⟨true, true, true, 0⟩ "f").2.2 rfl rfl rfl rfl⟩

/-- Claim C8: a declared media type other than exactly "video/mp4" makes
the handler fail with 400 BadRequest before any file is staged: the event
trace is empty (no temp file created, no bytes copied). -/
theorem claim_C8_mediatype (env : Env) (u : Nat) (v : Video)
    (h1 : env.videoIDOk = true) (h2 : env.tokenOk = true)
    (h3 : env.jwtUser = some u) (h4 : env.dbVideo = some v)
    (h5 : v.userID = u) (h6 : env.formFileOk = true)
    (h7 : env.mediaType ≠ "video/mp4") :
    handlerUploadVideo env = ⟨400, []⟩ := by
  simp [handlerUploadVideo, h1, h2, h3, h4, h5, h6, h7]

/-- Claim C8 (witness): declared content type "video/quicktime". -/
theorem claim_C8_witness :
    handlerUploadVideo
      ⟨true, true, some 0, some ⟨0, none⟩, true, "video/quicktime", true, "tmp",
       true, true, true, List.replicate 16 0, ProbeOut.streams [(0, 0)],
       ⟨true, true, true, 5⟩, true, true, true⟩ = ⟨400, []⟩ :=
  claim_C8_mediatype _ 0 ⟨0, none⟩ rfl rfl rfl rfl rfl rfl (by decide)

/-- Claim C9 (counterexample): with a malformed path video identifier the
handler responds 500 (InternalError), not 400 (BadRequest) as the claim
states. -/
theorem claim_C9_counterexample :
    (handlerUploadVideo envBadID).status = 500
      ∧ ¬ (handlerUploadVideo envBadID).status = 400 := by
  decide

/-- Claim C9 (amended): for every request whose path video identifier is
malformed (uuid.Parse fails), the pipeline fails with InternalError
(HTTP 500) before doing anything else. -/
theorem claim_C9_amended (env : Env) (h : env.videoIDOk = false) :
    handlerUploadVideo env = ⟨500, []⟩ := by
  simp [handlerUploadVideo, h]

/-- Claim C9 (witness): the amended theorem at the concrete malformed-id
environment. -/
theorem claim_C9_witness : handlerUploadVideo envBadID = ⟨500, []⟩ :=
  claim_C9_amended envBadID rfl

/-- Hex digits produced for inputs below 16 are in the class [0-9a-f]. -/
theorem hexDigitChar_hex : ∀ n, n < 16 → isHexDigitChar (hexDigitChar n) = true := by
  decide

/-- The hex expansion emits two characters per byte. -/
theorem hexChars_length (bs : List Nat) : (hexChars bs).length = 2 * bs.length := by
  induction bs with
  | nil => rfl
  | cons b rest ih => simp [hexChars, ih]; omega

/-- Every character of the hex expansion of a byte list is in [0-9a-f]. -/
theorem hexChars_mem (bs : List Nat) (hb : ∀ b ∈ bs, b < 256) :
    ∀ c ∈ hexChars bs, isHexDigitChar c = true := by
  induction bs with
  | nil => intro c hc; cases hc
  | cons b rest ih =>
    intro c hc
    have hblt : b < 256 := hb b (List.mem_cons_self b rest)
    simp only [hexChars] at hc
    rcases List.mem_cons.mp hc with hc | hc
    · exact hc ▸ hexDigitChar_hex (b / 16) (by omega)
    · rcases List.mem_cons.mp hc with hc | hc
      · exact hc ▸ hexDigitChar_hex (b % 16) (Nat.mod_lt b (by omega))
      · exact ih (fun x hx => hb x (List.mem_cons_of_mem b hx)) c hc

/-- Claim C7: the derived object key is the classification, a slash, the
hex encoding of the 16 random bytes, and ".mp4"; the hex part has exactly
32 characters, all in [0-9a-f]; and the classification the handler passes
in is always one of "landscape", "portrait", "other". -/
theorem claim_C7_key (pfx : String) (bs : List Nat)
    (_hp : pfx = "landscape" ∨ pfx = "portrait" ∨ pfx = "other")
    (hlen : bs.length = 16) (hb : ∀ b ∈ bs, b < 256) :
    deriveKey pfx bs = pfx ++ "/" ++ hexEncode bs ++ ".mp4"
  ∧ (hexEncode bs).length = 32
  ∧ (∀ c ∈ (hexEncode bs).data, isHexDigitChar c = true)
  ∧ (∀ w h : ℤ, classifyPfx w h = "landscape" ∨ classifyPfx w h = "portrait"
        ∨ classifyPfx w h = "other") := by
  refine ⟨rfl, ?_, ?_, ?_⟩
  · show (hexChars bs).length = 32
    rw [hexChars_length, hlen]
  · exact hexChars_mem bs hb
  · intro w h
    unfold classifyPfx pfxOf
    split
    · exact Or.inl rfl
    · split
      · exact Or.inr (Or.inl rfl)
      · exact Or.inr (Or.inr rfl)

/-- Claim C7 (witness): the key-shape theorem at classification
"landscape" and sixteen zero bytes. -/
theorem claim_C7_witness :
    deriveKey "landscape" (List.replicate 16 0)
        = "landscape" ++ "/" ++ hexEncode (List.replicate 16 0) ++ ".mp4"
  ∧ (hexEncode (List.replicate 16 0)).length = 32
  ∧ (∀ c ∈ (hexEncode (List.replicate 16 0)).data, isHexDigitChar c = true)
  ∧ (∀ w h : ℤ, classifyPfx w h = "landscape" ∨ classifyPfx w h = "portrait"
        ∨ classifyPfx w h = "other") :=
  claim_C7_key "landscape" (List.replicate 16 0) (Or.inl rfl) (by decide) (by decide)

/-- Claim C10: with first-stream height 0 (any width, including 0) the
probe does not fail or trap on the division: the modelled float ratio is
+Inf, -Inf or NaN, both tolerance window tests of the code are false, and
`getVideoAspectRatio` succeeds with classification "other". -/
theorem claim_C10_zero_height (w : ℤ) (rest : List (ℤ × ℤ)) :
    getVideoAspectRatio (ProbeOut.streams ((w, 0) :: rest)) = Except.ok "other"
  ∧ (floatDiv w 0 = FloatVal.posInf ∨ floatDiv w 0 = FloatVal.negInf
        ∨ floatDiv w 0 = FloatVal.nan)
  ∧ (fvGtB (floatDiv w 0) (16/9 - 1/10) && fvLtB (floatDiv w 0) (16/9 + 1/10)) = false
  ∧ (fvGtB (floatDiv w 0) (9/16 - 1/10) && fvLtB (floatDiv w 0) (9/16 + 1/10)) = false := by
  have hdiv : floatDiv w 0 = FloatVal.posInf ∨ floatDiv w 0 = FloatVal.negInf
      ∨ floatDiv w 0 = FloatVal.nan := by
    unfold floatDiv
    rcases lt_trichotomy 0 w with hw | hw | hw
    · exact Or.inl (by simp [hw])
    · exact Or.inr (Or.inr (by simp [hw.symm]))
    · exact Or.inr (Or.inl (by simp [hw, not_lt_of_gt hw]))
  have hga : getVideoAspectRatio (ProbeOut.streams ((w, 0) :: rest))
      = Except.ok (classify w 0) := rfl
  rcases hdiv with hd | hd | hd <;>
    simp [hga, classify, classifyVal, fvGtB, fvLtB, hd]

theorem classifyVal_finite (q : ℚ) :
    classifyVal (FloatVal.finite q)
      = if |q - 16/9| < 1/10 then "16:9"
        else if |q - 9/16| < 1/10 then "9:16" else "other" := by
  have e1 : ((16/9 - 1/10 : ℚ) < q ∧ q < 16/9 + 1/10) ↔ |q - 16/9| < 1/10 := by
    rw [abs_sub_lt_iff]
    constructor
    · intro hc; exact ⟨by linarith [hc.2], by linarith [hc.1]⟩
    · intro hc; exact ⟨by linarith [hc.2], by linarith [hc.1]⟩
  have e2 : ((9/16 - 1/10 : ℚ) < q ∧ q < 9/16 + 1/10) ↔ |q - 9/16| < 1/10 := by
    rw [abs_sub_lt_iff]
    constructor
    · intro hc; exact ⟨by linarith [hc.2], by linarith [hc.1]⟩
    · intro hc; exact ⟨by linarith [hc.2], by linarith [hc.1]⟩
  unfold classifyVal fvGtB fvLtB
  simp only [Bool.and_eq_true, decide_eq_true_iff, e1, e2]

theorem landscape_portrait_disjoint (q : ℚ)
    (hL : |q - 16/9| < 1/10) (hP : |q - 9/16| < 1/10) : False := by
  rw [abs_sub_lt_iff] at hL hP
  linarith [hL.2, hP.1]

theorem classify_iff (r : FloatVal) :
    (pfxOf (classifyVal r) = "landscape" ↔ fvDistLtB r (16/9) (1/10) = true)
  ∧ (pfxOf (classifyVal r) = "portrait" ↔ fvDistLtB r (9/16) (1/10) = true)
  ∧ (pfxOf (classifyVal r) = "other" ↔
      (fvDistLtB r (16/9) (1/10) = false ∧ fvDistLtB r (9/16) (1/10) = false)) := by
  have pfx1 : pfxOf "16:9" = "landscape" := rfl
  have pfx2 : pfxOf "9:16" = "portrait" := rfl
  have pfx3 : pfxOf "other" = "other" := rfl
  cases r with
  | finite q =>
    rw [classifyVal_finite]
    by_cases hL : |q - 16/9| < (1/10 : ℚ) <;> by_cases hP : |q - 9/16| < (1/10 : ℚ)
    · exact (landscape_portrait_disjoint q hL hP).elim
    · rw [if_pos hL, pfx1]
      refine ⟨iff_of_true rfl (by simp only [fvDistLtB]; exact decide_eq_true hL),
              iff_of_false (by decide) ?_, iff_of_false (by decide) ?_⟩
      · simp only [fvDistLtB]
        exact fun hc => hP (of_decide_eq_true hc)
      · simp only [fvDistLtB]
        rintro ⟨hf, _⟩
        rw [decide_eq_true hL] at hf
        cases hf
    · rw [if_neg hL, if_pos hP, pfx2]
      refine ⟨iff_of_false (by decide) ?_,
              iff_of_true rfl (by simp only [fvDistLtB]; exact decide_eq_true hP),
              iff_of_false (by decide) ?_⟩
      · simp only [fvDistLtB]
        exact fun hc => hL (of_decide_eq_true hc)
      · simp only [fvDistLtB]
        rintro ⟨_, hf⟩
        rw [decide_eq_true hP] at hf
        cases hf
    · rw [if_neg hL, if_neg hP, pfx3]
      refine ⟨iff_of_false (by decide) ?_, iff_of_false (by decide) ?_,
              iff_of_true rfl
                ⟨by simp only [fvDistLtB]; exact decide_eq_false hL,
                 by simp only [fvDistLtB]; exact decide_eq_false hP⟩⟩
      · simp only [fvDistLtB]
        exact fun hc => hL (of_decide_eq_true hc)
      · simp only [fvDistLtB]
        exact fun hc => hP (of_decide_eq_true hc)
  | posInf => exact ⟨by decide, by decide, by decide⟩
  | negInf => exact ⟨by decide, by decide, by decide⟩
  | nan => exact ⟨by decide, by decide, by decide⟩

theorem claim_C3_classification (w h : ℤ) :
    (classifyPfx w h = "landscape" ↔ fvDistLtB (floatDiv w h) (16/9) (1/10) = true)
  ∧ (classifyPfx w h = "portrait" ↔ fvDistLtB (floatDiv w h) (9/16) (1/10) = true)
  ∧ (classifyPfx w h = "other" ↔
      (fvDistLtB (floatDiv w h) (16/9) (1/10) = false
        ∧ fvDistLtB (floatDiv w h) (9/16) (1/10) = false))
  ∧ (∀ rest, getVideoAspectRatio (ProbeOut.streams ((w, h) :: rest))
        = Except.ok (classify w h)) :=
  ⟨(classify_iff (floatDiv w h)).1, (classify_iff (floatDiv w h)).2.1,
   (classify_iff (floatDiv w h)).2.2, fun _ => rfl⟩



/-- The failures before staging all return an empty trace; otherwise the
handler's result is exactly the staged pipeline's. -/
theorem handler_trace_cases (env : Env) :
    (handlerUploadVideo env).trace = [] ∨ handlerUploadVideo env = stagedPipeline env := by
  unfold handlerUploadVideo
  repeat' first
    | exact Or.inr rfl
    | exact Or.inl rfl
    | split

/-- In every run of the staged pipeline, no record update occurs before a
successful object-store put. -/
theorem upd_staged (env : Env) : updateOnlyAfterPut (stagedPipeline env).trace = true := by
  obtain ⟨vid, tok, jwt, dbv, ff, mt, cto, tn, cpo, sko, rnd, rbs, prb, ffm, opo, put, upd⟩ := env
  obtain ⟨onp, exok, wout, osz⟩ := ffm
  cases cpo with
  | false => rfl
  | true =>
    cases sko with
    | false => rfl
    | true =>
      cases rnd with
      | false => rfl
      | true =>
        rcases prb with _ | _ | ⟨_ | ⟨⟨w, hh⟩, rest⟩⟩
        · rfl
        · rfl
        · rfl
        · cases onp with
          | false => rfl
          | true =>
            cases exok with
            | false => cases wout <;> rfl
            | true =>
              cases wout with
              | false => rfl
              | true =>
                rcases osz with _ | n
                · rfl
                · cases opo with
                  | false => rfl
                  | true =>
                    cases put with
                    | false => rfl
                    | true => cases upd <;> rfl

/-- Claim C5: in every execution of the handler, the metadata store's
update operation is invoked only after the object-store upload has
succeeded — scanning the event trace, no update event ever occurs before
a successful put event; in particular, if every step up to and including
the put fails, the record is never updated. -/
theorem claim_C5_update_after_put (env : Env) :
    updateOnlyAfterPut (handlerUploadVideo env).trace = true := by
  rcases handler_trace_cases env with h | h
  · rw [h]
    rfl
  · rw [h]
    exact upd_staged env


/-- Cleanup contract for the empty trace. -/
theorem cleanup_nil (tn : String) : cleanupSpec tn [] := by
  simp [cleanupSpec, remainingFiles, createdNames, removedNames]

/-- Cleanup contract when only the staged temp file was created: its
deferred removal runs. -/
theorem cleanup_pre (tn : String) :
    cleanupSpec tn [Event.createTemp tn, Event.copyBytes, Event.removeFile tn] := by
  simp [cleanupSpec, remainingFiles, createdNames, removedNames]

/-- Cleanup contract when the remux step failed after ffmpeg created its
output: only the temp file's deferred removal runs and the output file
survives. -/
theorem cleanup_leak (tn : String) :
    cleanupSpec tn [Event.createTemp tn, Event.copyBytes,
      Event.createOutput (tn ++ ".processing"), Event.removeFile tn] := by
  simp [cleanupSpec, remainingFiles, createdNames, removedNames]

/-- Cleanup contract when the remux succeeded and a later step failed
before the put: both deferred removals run, output first. -/
theorem cleanup_open (tn : String) :
    cleanupSpec tn [Event.createTemp tn, Event.copyBytes,
      Event.createOutput (tn ++ ".processing"),
      Event.removeFile (tn ++ ".processing"), Event.removeFile tn] := by
  simp [cleanupSpec, remainingFiles, createdNames, removedNames]

/-- Cleanup contract for traces that reach the object-store put. -/
theorem cleanup_put (tn k : String) (b : Bool) :
    cleanupSpec tn [Event.createTemp tn, Event.copyBytes,
      Event.createOutput (tn ++ ".processing"), Event.putObject k b,
      Event.removeFile (tn ++ ".processing"), Event.removeFile tn] := by
  simp [cleanupSpec, remainingFiles, createdNames, removedNames]

/-- Cleanup contract for traces that reach the record update. -/
theorem cleanup_upd (tn k : String) (b b2 : Bool) :
    cleanupSpec tn [Event.createTemp tn, Event.copyBytes,
      Event.createOutput (tn ++ ".processing"), Event.putObject k b,
      Event.updateVideo b2,
      Event.removeFile (tn ++ ".processing"), Event.removeFile tn] := by
  simp [cleanupSpec, remainingFiles, createdNames, removedNames]

/-- Every run of the staged pipeline satisfies the amended cleanup
contract. -/
theorem staged_cleanup (env : Env) :
    cleanupSpec env.tempName (stagedPipeline env).trace := by
  obtain ⟨vid, tok, jwt, dbv, ff, mt, cto, tn, cpo, sko, rnd, rbs, prb, ffm, opo, put, upd⟩ := env
  obtain ⟨onp, exok, wout, osz⟩ := ffm
  cases cpo with
  | false => exact cleanup_pre tn
  | true =>
    cases sko with
    | false => exact cleanup_pre tn
    | true =>
      cases rnd with
      | false => exact cleanup_pre tn
      | true =>
        rcases prb with _ | _ | ⟨_ | ⟨⟨w, hh⟩, rest⟩⟩
        · exact cleanup_pre tn
        · exact cleanup_pre tn
        · exact cleanup_pre tn
        · cases onp with
          | false => exact cleanup_pre tn
          | true =>
            cases exok with
            | false =>
              cases wout with
              | false => exact cleanup_pre tn
              | true => exact cleanup_leak tn
            | true =>
              cases wout with
              | false => exact cleanup_pre tn
              | true =>
                rcases osz with _ | n
                · exact cleanup_leak tn
                · cases opo with
                  | false => exact cleanup_open tn
                  | true =>
                    cases put with
                    | false =>
                      exact cleanup_put tn
                        (deriveKey (pfxOf (classify w hh)) rbs) false
                    | true =>
                      cases upd with
                      | false =>
                        exact cleanup_upd tn
                          (deriveKey (pfxOf (classify w hh)) rbs) true false
                      | true =>
                        exact cleanup_upd tn
                          (deriveKey (pfxOf (classify w hh)) rbs) true true

/-- Claim C2 (counterexample): when ffmpeg creates a zero-byte output and
exits 0, the remux step fails (500), yet the remuxer's output file
"tmp.processing" — a temporary file created during the request — remains
on disk after the request completes, so the claimed unconditional cleanup
does not hold. -/
theorem claim_C2_counterexample :
    (handlerUploadVideo envZeroOut).status = 500
  ∧ remainingFiles (handlerUploadVideo envZeroOut).trace = ["tmp.processing"]
  ∧ ¬ remainingFiles (handlerUploadVideo envZeroOut).trace = [] := by
  decide

/-- Claim C2 (amended): in every execution, the staged temp file never
remains on disk, the only file that can remain is the remuxer's output
(exactly when the remux step fails after creating it), and the deletions
that are performed occur in reverse order of creation. -/
theorem claim_C2_amended_cleanup (env : Env) :
    cleanupSpec env.tempName (handlerUploadVideo env).trace := by
  rcases handler_trace_cases env with h | h
  · rw [h]
    exact cleanup_nil env.tempName
  · rw [h]
    exact staged_cleanup env

end UploadVideo
